import Mathlib

/-!
Verification development for the incremental content-curation pipeline
(RSS/Reddit curators, relevance scorer, reel generator).

The Python modules are shallowly embedded as executable Lean definitions:

* `src/modules/rss_curator.py` — fingerprinting (`_generate_content_hash`),
  cursor metadata (`_update_RSS_METADATA`), new-content classification
  (`_is_new_content`), duplicate-checked storage (`_store_content`) and the
  per-feed processing loop (`fetch_feed`);
* `src/modules/reddit_curator.py` — the social-source variants of the same
  operations, including the `hot(limit = max_posts * 2)` fetch request;
* `src/backend/modules/relevance_scorer.py` — score parsing and range checks
  (`_call_gemini_api`) and the retry loop (`calculate_relevance_score`);
* `src/backend/modules/reel_generator.py` — backoff-window extraction
  (`_extract_retry_delay`) and the classified retry loop
  (`_make_gemini_request_with_retry`).

External effects (the document store, the generative API, wall-clock sleeps)
are made explicit: the store is an association list keyed by the fingerprint,
and each API attempt's outcome is supplied by an oracle `Nat → ApiResult`
giving the response of the i-th attempt.  Timestamps are natural numbers.
-/

namespace Pipeline

/-! ## MD5 (the digest behind `hashlib.md5(...).hexdigest()`)

A byte-level implementation of RFC 1321 over `Nat` with explicit `% 2^32`
arithmetic; strings are first UTF-8 encoded.  The curators use the hex digest
of the delimiter-joined fields as the document id. -/

/-- 2^32: the modulus of the 32-bit arithmetic inside MD5. -/
def M32 : Nat := 4294967296

/-- Addition modulo 2^32. -/
def add32 (a b : Nat) : Nat := (a + b) % M32

/-- Bitwise complement on 32-bit words (arguments reduced mod 2^32). -/
def not32 (a : Nat) : Nat := M32 - 1 - a % M32

/-- Rotate a 32-bit word left by `s` bits. -/
def rotl32 (x s : Nat) : Nat := ((x <<< s) % M32) + (x % M32) >>> (32 - s)

/-- UTF-8 encoding of one code point as a list of bytes. -/
def utf8Char (c : Nat) : List Nat :=
  if c < 128 then [c]
  else if c < 2048 then [192 + c / 64, 128 + c % 64]
  else if c < 65536 then [224 + c / 4096, 128 + (c / 64) % 64, 128 + c % 64]
  else [240 + c / 262144, 128 + (c / 4096) % 64, 128 + (c / 64) % 64, 128 + c % 64]

/-- UTF-8 encoding of a string as a list of bytes (Python `str.encode('utf-8')`). -/
def utf8Encode (s : String) : List Nat :=
  s.data.foldr (fun c acc => utf8Char c.toNat ++ acc) []

/-- `count` little-endian bytes of `n`. -/
def leBytes (n count : Nat) : List Nat :=
  match count with
  | 0 => []
  | k + 1 => n % 256 :: leBytes (n / 256) k

/-- MD5 padding: append `0x80`, zero bytes to 56 mod 64, then the 64-bit
little-endian bit length. -/
def md5Pad (msg : List Nat) : List Nat :=
  let len := msg.length
  let zeros := (64 + 56 - (len + 1) % 64) % 64
  msg ++ (128 :: List.replicate zeros 0) ++ leBytes ((8 * len) % (M32 * M32)) 8

/-- Split a byte list into 64-byte blocks. -/
def chunks64 (bs : List Nat) : List (List Nat) :=
  if h : bs = [] then []
  else bs.take 64 :: chunks64 (bs.drop 64)
termination_by bs.length
decreasing_by
  have : 0 < bs.length := List.length_pos.mpr h
  simp only [List.length_drop]
  omega

/-- Little-endian 32-bit word from 4 bytes. -/
def leWord (bs : List Nat) : Nat :=
  match bs with
  | [b0, b1, b2, b3] => b0 + 256 * (b1 + 256 * (b2 + 256 * b3))
  | _ => 0

/-- The 16 little-endian message words of one 64-byte block. -/
def blockWords (block : List Nat) : List Nat :=
  (List.range 16).map (fun i => leWord ((block.drop (4 * i)).take 4))

/-- The per-round nonlinear functions of MD5. -/
def mdF (b c d : Nat) : Nat := (b &&& c) ||| (not32 b &&& d)

def mdG (b c d : Nat) : Nat := (d &&& b) ||| (not32 d &&& c)

def mdH (b c d : Nat) : Nat := b ^^^ c ^^^ d

def mdI (b c d : Nat) : Nat := c ^^^ (b ||| not32 d)

/-- The MD5 sine-derived constant table `K` (RFC 1321). -/
def md5K : List Nat :=
  [3614090360, 3905402710, 606105819, 3250441966, 4118548399, 1200080426,
   2821735955, 4249261313, 1770035416, 2336552879, 4294925233, 2304563134,
   1804603682, 4254626195, 2792965006, 1236535329, 4129170786, 3225465664,
   643717713, 3921069994, 3593408605, 38016083, 3634488961, 3889429448,
   568446438, 3275163606, 4107603335, 1163531501, 2850285829, 4243563512,
   1735328473, 2368359562, 4294588738, 2272392833, 1839030562, 4259657740,
   2763975236, 1272893353, 4139469664, 3200236656, 681279174, 3936430074,
   3572445317, 76029189, 3654602809, 3873151461, 530742520, 3299628645,
   4096336452, 1126891415, 2878612391, 4237533241, 1700485571, 2399980690,
   4293915773, 2240044497, 1873313359, 4264355552, 2734768916, 1309151649,
   4149444226, 3174756917, 718787259, 3951481745]

/-- The MD5 per-round rotation amounts `s` (RFC 1321). -/
def md5S : List Nat :=
  [7, 12, 17, 22, 7, 12, 17, 22, 7, 12, 17, 22, 7, 12, 17, 22,
   5, 9, 14, 20, 5, 9, 14, 20, 5, 9, 14, 20, 5, 9, 14, 20,
   4, 11, 16, 23, 4, 11, 16, 23, 4, 11, 16, 23, 4, 11, 16, 23,
   6, 10, 15, 21, 6, 10, 15, 21, 6, 10, 15, 21, 6, 10, 15, 21]

/-- The four 32-bit registers of the MD5 state. -/
structure MD5State where
  a : Nat
  b : Nat
  c : Nat
  d : Nat
deriving DecidableEq, Repr

/-- One of the 64 MD5 rounds on one block (message words `m`). -/
def md5Round (m : List Nat) (st : MD5State) (i : Nat) : MD5State :=
  let fg : Nat × Nat :=
    if i < 16 then (mdF st.b st.c st.d, i)
    else if i < 32 then (mdG st.b st.c st.d, (5 * i + 1) % 16)
    else if i < 48 then (mdH st.b st.c st.d, (3 * i + 5) % 16)
    else (mdI st.b st.c st.d, (7 * i) % 16)
  let tmp := (fg.1 + st.a + md5K.getD i 0 + m.getD fg.2 0) % M32
  { a := st.d, d := st.c, c := st.b, b := add32 st.b (rotl32 tmp (md5S.getD i 0)) }

/-- Compress one 64-byte block into the running state. -/
def md5Block (st : MD5State) (block : List Nat) : MD5State :=
  let m := blockWords block
  let r := (List.range 64).foldl (md5Round m) st
  ⟨add32 st.a r.a, add32 st.b r.b, add32 st.c r.c, add32 st.d r.d⟩

/-- The MD5 initialization vector. -/
def md5Init : MD5State := ⟨1732584193, 4023233417, 2562383102, 271733878⟩

/-- Lower-case hex digit of a value below 16. -/
def hexDigit (n : Nat) : Char :=
  if n < 10 then Char.ofNat (48 + n) else Char.ofNat (87 + n)

/-- Two lower-case hex digits of one byte. -/
def byteHex (b : Nat) : List Char := [hexDigit (b / 16), hexDigit (b % 16)]

/-- `hashlib.md5(s.encode('utf-8')).hexdigest()`: the 32-character lower-case
hex MD5 digest of a string. -/
def md5Hex (s : String) : String :=
  let st := (chunks64 (md5Pad (utf8Encode s))).foldl md5Block md5Init
  let bytes := leBytes st.a 4 ++ leBytes st.b 4 ++ leBytes st.c 4 ++ leBytes st.d 4
  String.mk (bytes.foldr (fun b acc => byteHex b ++ acc) [])

/-! ## Fingerprint engine (`_generate_content_hash` in both curators) -/

/-- The delimiter-joined pre-hash string of the RSS curator:
`f"{title}|{link}|{description}"`. -/
def contentString (title link description : String) : String :=
  title ++ "|" ++ link ++ "|" ++ description

/-- `RSSFeedCurator._generate_content_hash(title, link, description)`. -/
def generateContentHash (title link description : String) : String :=
  md5Hex (contentString title link description)

/-- The delimiter-joined pre-hash string of the Reddit curator:
`f"{title}|{post_id}|{subreddit}"`. -/
def redditContentString (title postId subreddit : String) : String :=
  title ++ "|" ++ postId ++ "|" ++ subreddit

/-- `RedditPostCurator._generate_content_hash(title, post_id, subreddit)`. -/
def generateRedditContentHash (title postId subreddit : String) : String :=
  md5Hex (redditContentString title postId subreddit)


/-! ## Source cursor store (`RSS_METADATA` / `SUBREDDIT_METADATA` documents)

A cursor document holds the per-source `last_processed` watermark (a nullable
timestamp) and the cumulative `total_items_processed` counter. -/

/-- One source's metadata document (`_get_RSS_METADATA` /
`_get_subreddit_metadata` shape, restricted to the fields the pipeline reads
back). -/
structure SourceCursor where
  last_processed : Option Nat
  total_items_processed : Nat
deriving DecidableEq, Repr

/-- `_update_RSS_METADATA(feed_url, last_processed, items_processed)`: the
document update writes the given `last_processed` value and applies
`firestore.Increment(items_processed)` to the counter. -/
def updateRSSMetadata (m : SourceCursor) (lastProcessed : Option Nat)
    (itemsProcessed : Nat) : SourceCursor :=
  { last_processed := lastProcessed,
    total_items_processed := m.total_items_processed + itemsProcessed }

/-- The running-maximum update of `fetch_feed` / `fetch_subreddit`:
`if entry_date and (not latest_processed_date or entry_date >
latest_processed_date): latest_processed_date = entry_date`. -/
def advanceLatest (latest : Option Nat) (entryDate : Option Nat) : Option Nat :=
  match entryDate with
  | none => latest
  | some d =>
    match latest with
    | none => some d
    | some c => if d > c then some d else some c

/-- One cursor-advance call as the feed loop performs it for a stored item
with timestamp `t`, followed by the metadata write: take the running maximum
with the stored watermark, write it back, bump the counter by `delta`. -/
def advanceCall (m : SourceCursor) (t : Nat) (delta : Nat) : SourceCursor :=
  updateRSSMetadata m (advanceLatest m.last_processed (some t)) delta

/-- A sequence of cursor-advance calls, each a `(timestamp, items_delta)`
pair, applied in order. -/
def advanceCalls (m : SourceCursor) (calls : List (Nat × Nat)) : SourceCursor :=
  calls.foldl (fun acc c => advanceCall acc c.1 c.2) m

/-- Order on nullable watermarks: an absent watermark is below everything;
`some x ≤ some y` iff `x ≤ y`.  Used to state that a cursor never decreases. -/
def cursorLe (a b : Option Nat) : Prop :=
  ∀ x, a = some x → ∃ y, b = some y ∧ x ≤ y

/-! ## Ingestion data model -/

/-- A raw feed entry as the coordinator consumes it: textual payload plus the
already-parsed publication date (`none` models a missing or unparsable
`published` string, which `_parse_feed_date` turns into `None`). -/
structure Entry where
  title : String
  link : String
  summary : String
  published : Option Nat
deriving DecidableEq, Repr

/-- The relevance fields `calculate_relevance_score` merges into a document
before storage. -/
structure ScoreResult where
  relevance_score : Int
  is_relevant : Bool
deriving DecidableEq, Repr

/-- A stored content document (the claim-relevant fields of
`_extract_content_data`'s dict): the fingerprint id, the payload it was
computed from, the parsed publication date, and the optional relevance
enrichment added by `_store_content`. -/
structure ContentData where
  id : String
  title : String
  link : String
  description : String
  published : Option Nat
  relevance : Option ScoreResult
deriving DecidableEq, Repr

/-- `RSSFeedCurator._extract_content_data`: assemble the document, keyed by
the fingerprint of `(title, link, summary)`. -/
def extractContentData (e : Entry) : ContentData :=
  { id := generateContentHash e.title e.link e.summary,
    title := e.title,
    link := e.link,
    description := e.summary,
    published := e.published,
    relevance := none }

/-- The content collection (`RAW_IDEAS`): documents keyed by their id. -/
abbrev Store := List (String × ContentData)

/-- `RSSFeedCurator._store_content`: if a document with this id already
exists, do nothing and report `false`; otherwise attach the relevance result
(when scoring is enabled and produced one) and create the document, reporting
`true`. -/
def storeContent (store : Store) (d : ContentData) (relevance : Option ScoreResult) :
    Store × Bool :=
  match store.lookup d.id with
  | some _ => (store, false)
  | none => ((d.id, { d with relevance := relevance }) :: store, true)

/-- `RSSFeedCurator._is_new_content(entry, last_processed)`: everything is new
while the cursor is unset; an entry whose date did not parse is new; otherwise
the entry is new iff its date is strictly after the watermark. -/
def rssIsNewContent (published lastProcessed : Option Nat) : Bool :=
  match lastProcessed with
  | none => true
  | some lp =>
    match published with
    | none => true
    | some d => lp < d

/-- `RedditPostCurator._is_new_content(post, last_processed)`: a Reddit post
always carries a numeric `created_utc`, so only the watermark comparison
remains. -/
def redditIsNewContent (postDate : Nat) (lastProcessed : Option Nat) : Bool :=
  match lastProcessed with
  | none => true
  | some lp => lp < postDate

/-- How the feed loop disposed of one entry: stored as new, skipped as a
duplicate (already in the store), or skipped as old content (cursor says it
is not new). -/
inductive ItemOutcome where
  | storedNew
  | duplicateSkip
  | oldSkip
deriving DecidableEq, Repr

/-- The body of `fetch_feed`'s entry loop: classify each entry against the
watermark read at cycle start, store the new ones, and keep the running
maximum `latest_processed_date` over the dates of items actually stored.
Returns the final store, the running maximum, the new-item count and one
`ItemOutcome` per entry. -/
def processEntries (lastProcessed : Option Nat) (relevance : Option ScoreResult) :
    List Entry → Store → Option Nat → Nat →
    Store × Option Nat × Nat × List ItemOutcome
  | [], store, latest, count => (store, latest, count, [])
  | e :: rest, store, latest, count =>
    if rssIsNewContent e.published lastProcessed then
      let d := extractContentData e
      let sb := storeContent store d relevance
      if sb.2 then
        let r := processEntries lastProcessed relevance rest sb.1
          (advanceLatest latest e.published) (count + 1)
        (r.1, r.2.1, r.2.2.1, ItemOutcome.storedNew :: r.2.2.2)
      else
        let r := processEntries lastProcessed relevance rest sb.1 latest count
        (r.1, r.2.1, r.2.2.1, ItemOutcome.duplicateSkip :: r.2.2.2)
    else
      let r := processEntries lastProcessed relevance rest store latest count
      (r.1, r.2.1, r.2.2.1, ItemOutcome.oldSkip :: r.2.2.2)

/-- The mutable state `fetch_feed` touches: the content collection and the
feed's metadata document. -/
structure PipelineState where
  store : Store
  metadata : SourceCursor
deriving DecidableEq, Repr

/-- `feed.entries[:self.max_items_per_feed]`: the slice of raw feed entries
the RSS loop actually processes. -/
def rssLatestEntries (entries : List Entry) (maxItemsPerFeed : Nat) : List Entry :=
  entries.take maxItemsPerFeed

/-- `subreddit.hot(limit = self.max_posts_per_subreddit * 2)`: the result
count the Reddit curator requests from its fetch adapter. -/
def redditFetchLimit (maxPostsPerSubreddit : Nat) : Nat :=
  maxPostsPerSubreddit * 2

/-- One `fetch_feed` cycle over the given raw entries: read the watermark,
process the first `max_items_per_feed` entries against it, then — only when
something was stored or the running maximum moved — write the metadata update.
Returns the new state and the per-entry outcomes. -/
def fetchFeedCycle (relevance : Option ScoreResult) (s : PipelineState)
    (entries : List Entry) (maxItemsPerFeed : Nat) :
    PipelineState × List ItemOutcome :=
  let lp := s.metadata.last_processed
  let r := processEntries lp relevance (rssLatestEntries entries maxItemsPerFeed) s.store lp 0
  let metadata :=
    if r.2.2.1 > 0 ∨ r.2.1 ≠ lp then updateRSSMetadata s.metadata r.2.1 r.2.2.1
    else s.metadata
  (⟨r.1, metadata⟩, r.2.2.2)

/-! ## Relevance scorer (`relevance_scorer.py`)

The generative endpoint is modelled by an oracle `Nat → ApiResult` giving the
outcome of the i-th API attempt: an exception with an error message, an empty
response, or a response text. -/

/-- `DEFAULT_MAX_RETRIES` of `relevance_scorer.py`. -/
def DEFAULT_MAX_RETRIES : Nat := 3

/-- `DEFAULT_MIN_SCORE` of `relevance_scorer.py`: the threshold of
`is_relevant = score >= self.min_score`. -/
def DEFAULT_MIN_SCORE : Int := 0

/-- `DEFAULT_RETRY_DELAY` of `reel_generator.py`. -/
def DEFAULT_RETRY_DELAY : Nat := 60

/-- `MAX_RETRIES` of `reel_generator.py`. -/
def MAX_RETRIES : Nat := 3

/-- Outcome of one call to the generative endpoint. -/
inductive ApiResult where
  | apiError (message : String)
  | emptyText
  | text (body : String)
deriving DecidableEq, Repr

/-- Python's whitespace set for `str.strip()` and the regex class `\s`:
space, tab, newline, carriage return, vertical tab, form feed. -/
def pyIsSpace (c : Char) : Bool :=
  c == ' ' || c == '\t' || c == '\n' || c == '\r' ||
    c == Char.ofNat 11 || c == Char.ofNat 12

/-- Python `str.strip()`. -/
def pyStrip (s : String) : String :=
  String.mk (((s.data.dropWhile pyIsSpace).reverse.dropWhile pyIsSpace).reverse)

/-- Python `str.lower()` (ASCII case folding suffices for the classified
error texts). -/
def pyLower (s : String) : String := String.mk (s.data.map Char.toLower)

/-- A nonempty all-digit character list as a number. -/
def digitsToNat (cs : List Char) : Option Nat :=
  if cs ≠ [] ∧ cs.all Char.isDigit then
    some (cs.foldl (fun a c => 10 * a + (c.toNat - 48)) 0)
  else none

/-- Python `int(text)` on stripped score text: an optional sign followed by
digits (the forms a numeric score reply can take). -/
def parseIntPy (s : String) : Option Int :=
  match (pyStrip s).data with
  | '-' :: rest => (digitsToNat rest).map (fun n => -(n : Int))
  | '+' :: rest => (digitsToNat rest).map (fun n => (n : Int))
  | cs => (digitsToNat cs).map (fun n => (n : Int))

/-- A regex word character (`\w`): letter, digit or underscore. -/
def isWordChar (c : Char) : Bool := c.isAlphanum || c == '_'

/-- Consume a run of digits: accumulated value, run length so far, rest. -/
def readRun (acc len : Nat) : List Char → Nat × Nat × List Char
  | [] => (acc, len, [])
  | c :: rest =>
    if c.isDigit then readRun (10 * acc + (c.toNat - 48)) (len + 1) rest
    else (acc, len, c :: rest)

theorem readRun_length_le (acc len : Nat) (cs : List Char) :
    (readRun acc len cs).2.2.length ≤ cs.length := by
  induction cs generalizing acc len with
  | nil => simp [readRun]
  | cons c rest ih =>
    simp only [readRun]
    split
    · exact (ih _ _).trans (Nat.le_succ _)
    · exact Nat.le_refl _

/-- The first match of `re.findall(r'\b(\d{1,3})\b', text)`: the first
maximal digit run of length 1–3 whose neighbours (if any) are non-word
characters.  `prev` is the character before the current position (`none` at
the start of the text); inside a digit run there is no word boundary, so a
run that fails is skipped whole. -/
def firstBoundedNumber : List Char → Option Char → Option Nat
  | [], _ => none
  | c :: rest, prev =>
    if c.isDigit then
      let r := readRun (c.toNat - 48) 1 rest
      let startOk := match prev with | none => true | some p => !isWordChar p
      let endOk := match r.2.2 with | [] => true | a :: _ => !isWordChar a
      if startOk && decide (r.2.1 ≤ 3) && endOk then some r.1
      else firstBoundedNumber r.2.2 (some '0')
    else firstBoundedNumber rest (some c)
termination_by cs _ => cs.length
decreasing_by
  · exact Nat.lt_succ_of_le (readRun_length_le _ _ _)
  · exact Nat.lt_succ_of_le (Nat.le_refl _)

/-- `RelevanceScorer._call_gemini_api`, given the attempt's outcome: an
exception or empty response yields `None`; otherwise parse the stripped text
as an integer and accept it only in `[0, 100]`; on a parse failure fall back
to the first word-bounded 1–3 digit number, again only in `[0, 100]`. -/
def callGeminiApi (r : ApiResult) : Option Nat :=
  match r with
  | .apiError _ => none
  | .emptyText => none
  | .text body =>
    let scoreText := pyStrip body
    match parseIntPy scoreText with
    | some score => if 0 ≤ score ∧ score ≤ 100 then some score.toNat else none
    | none =>
      match firstBoundedNumber scoreText.data none with
      | some n => if n ≤ 100 then some n else none
      | none => none

/-- The attempt loop of `calculate_relevance_score`: up to `fuel` attempts
starting at attempt index `i`, stopping at the first successful parse. -/
def tryAttempts (responses : Nat → ApiResult) : Nat → Nat → Option Nat
  | _, 0 => none
  | i, fuel + 1 =>
    match callGeminiApi (responses i) with
    | some s => some s
    | none => tryAttempts responses (i + 1) fuel

/-- How many attempts the loop of `calculate_relevance_score` performs. -/
def scorerAttemptsUsed (responses : Nat → ApiResult) : Nat → Nat → Nat
  | _, 0 => 0
  | i, fuel + 1 =>
    match callGeminiApi (responses i) with
    | some _ => 1
    | none => 1 + scorerAttemptsUsed responses (i + 1) fuel

/-- `RelevanceScorer.calculate_relevance_score`: run the attempt loop, fall
back to the sentinel `-1` when every attempt failed, and derive
`is_relevant = score >= min_score`.  `fatalError = true` models the outer
`except` branch, which returns the sentinel with `is_relevant = False`
directly. -/
def calculateRelevanceScore (minScore : Int) (fatalError : Bool)
    (responses : Nat → ApiResult) : ScoreResult :=
  if fatalError then { relevance_score := -1, is_relevant := false }
  else
    let score : Int :=
      match tryAttempts responses 0 DEFAULT_MAX_RETRIES with
      | some s => (s : Int)
      | none => -1
    { relevance_score := score, is_relevant := decide (minScore ≤ score) }

/-! ## Reel generator retry discipline (`reel_generator.py`) -/

/-- Does the text start with the pattern? -/
def listStartsWith : List Char → List Char → Bool
  | [], _ => true
  | _ :: _, [] => false
  | p :: ps, c :: cs => p == c && listStartsWith ps cs

/-- Python's `pattern in text` substring test. -/
def containsSub (pat : List Char) : List Char → Bool
  | [] => listStartsWith pat []
  | c :: rest => listStartsWith pat (c :: rest) || containsSub pat rest

/-- The rate-limit classifier of `_make_gemini_request_with_retry`:
`"quota" in msg.lower() or "retry" in msg.lower() or "rate" in msg.lower()`. -/
def isRateLimitError (message : String) : Bool :=
  let l := (pyLower message).data
  containsSub "quota".data l || containsSub "retry".data l || containsSub "rate".data l

/-- Consume an expected literal; `none` when the text does not start with it. -/
def stripLit : List Char → List Char → Option (List Char)
  | [], cs => some cs
  | _ :: _, [] => none
  | p :: ps, c :: cs => if c == p then stripLit ps cs else none

/-- `\s*`. -/
def skipSpaces (cs : List Char) : List Char := cs.dropWhile pyIsSpace

/-- Try `Please retry in (\d+(?:\.\d+)?)s` at this position of the lowered
text: the literal, one or more digits, an optional fraction, then `s`.
Returns the integer part of the captured group (the value
`int(float(group))` yields for the groups this pattern can capture). -/
def matchRetryInAt (cs : List Char) : Option Nat :=
  match stripLit "please retry in ".data cs with
  | none => none
  | some rest =>
    match rest with
    | c :: rest2 =>
      if c.isDigit then
        let r := readRun (c.toNat - 48) 1 rest2
        match r.2.2 with
        | '.' :: rest3 =>
          match rest3 with
          | d :: rest4 =>
            if d.isDigit then
              match (readRun 0 0 (d :: rest4)).2.2 with
              | 's' :: _ => some r.1
              | _ => none
            else none
          | [] => none
        | 's' :: _ => some r.1
        | _ => none
      else none
    | [] => none

/-- Try `retry_delay\s*\{\s*seconds:\s*(\d+)` at this position. -/
def matchRetryDelayAt (cs : List Char) : Option Nat :=
  match stripLit "retry_delay".data cs with
  | none => none
  | some rest =>
    match skipSpaces rest with
    | c :: rest2 =>
      if c == Char.ofNat 123 then
        match stripLit "seconds:".data (skipSpaces rest2) with
        | none => none
        | some rest3 =>
          match skipSpaces rest3 with
          | d :: rest4 =>
            if d.isDigit then some (readRun (d.toNat - 48) 1 rest4).1 else none
          | [] => none
      else none
    | [] => none

/-- Try `seconds:\s*(\d+)` at this position. -/
def matchSecondsAt (cs : List Char) : Option Nat :=
  match stripLit "seconds:".data cs with
  | none => none
  | some rest =>
    match skipSpaces rest with
    | d :: rest2 =>
      if d.isDigit then some (readRun (d.toNat - 48) 1 rest2).1 else none
    | [] => none

/-- `re.search`: the matcher tried at every position of the text. -/
def searchWith (m : List Char → Option Nat) : List Char → Option Nat
  | [] => none
  | c :: rest =>
    match m (c :: rest) with
    | some n => some n
    | none => searchWith m rest

/-- `ReelGenerator._extract_retry_delay`: the three patterns in order against
the error text (matched case-insensitively), the captured delay truncated to
an integer plus the 5-second buffer; `DEFAULT_RETRY_DELAY` when nothing
matches. -/
def extractRetryDelay (message : String) : Nat :=
  let cs := (pyLower message).data
  match searchWith matchRetryInAt cs with
  | some n => n + 5
  | none =>
    match searchWith matchRetryDelayAt cs with
    | some n => n + 5
    | none =>
      match searchWith matchSecondsAt cs with
      | some n => n + 5
      | none => DEFAULT_RETRY_DELAY

/-- `ReelGenerator._make_gemini_request_with_retry`, attempt `i` with `fuel`
attempts remaining (`fuel = 0` remaining models `attempt == MAX_RETRIES - 1`
having passed): a nonempty response text succeeds; an empty response retries
while attempts remain; an exception retries (after the extracted backoff)
only when classified as a rate limit, and otherwise returns `None` at once.
Returns the result and the number of attempts performed. -/
def reelRetryGo (responses : Nat → ApiResult) : Nat → Nat → Option String × Nat
  | _, 0 => (none, 0)
  | i, fuel + 1 =>
    match responses i with
    | .text body =>
      if body = "" then
        if fuel = 0 then (none, 1)
        else
          let r := reelRetryGo responses (i + 1) fuel
          (r.1, r.2 + 1)
      else (some body, 1)
    | .emptyText =>
      if fuel = 0 then (none, 1)
      else
        let r := reelRetryGo responses (i + 1) fuel
        (r.1, r.2 + 1)
    | .apiError msg =>
      if isRateLimitError msg then
        if fuel = 0 then (none, 1)
        else
          let r := reelRetryGo responses (i + 1) fuel
          (r.1, r.2 + 1)
      else (none, 1)

/-- The whole retry loop: `MAX_RETRIES` attempts starting at attempt 0. -/
def reelRequestWithRetry (responses : Nat → ApiResult) : Option String × Nat :=
  reelRetryGo responses 0 MAX_RETRIES


/-! ## Helper lemmas -/

theorem advanceLatest_some (a b : Nat) :
    advanceLatest (some a) (some b) = some (max a b) := by
  simp only [advanceLatest]
  split
  · rename_i h
    rw [Nat.max_eq_right (Nat.le_of_lt h)]
  · rename_i h
    rw [Nat.max_eq_left (Nat.le_of_not_lt h)]

theorem cursorLe_refl (a : Option Nat) : cursorLe a a :=
  fun x hx => ⟨x, hx, Nat.le_refl x⟩

theorem cursorLe_trans {a b c : Option Nat} (h1 : cursorLe a b) (h2 : cursorLe b c) :
    cursorLe a c := by
  intro x hx
  obtain ⟨y, hy, hxy⟩ := h1 x hx
  obtain ⟨z, hz, hyz⟩ := h2 y hy
  exact ⟨z, hz, Nat.le_trans hxy hyz⟩

theorem cursorLe_advanceLatest (a t : Option Nat) : cursorLe a (advanceLatest a t) := by
  cases t with
  | none => exact cursorLe_refl a
  | some d =>
    cases a with
    | none => intro x hx; cases hx
    | some c =>
      intro x hx
      injection hx with hcx
      subst hcx
      rw [advanceLatest_some]
      exact ⟨max c d, rfl, Nat.le_max_left c d⟩

theorem callGeminiApi_le (r : ApiResult) (v : Nat) (h : callGeminiApi r = some v) :
    v ≤ 100 := by
  cases r with
  | apiError m => simp [callGeminiApi] at h
  | emptyText => simp [callGeminiApi] at h
  | text body =>
    simp only [callGeminiApi] at h
    cases hp : parseIntPy (pyStrip body) with
    | some score =>
      simp only [hp] at h
      by_cases hc : 0 ≤ score ∧ score ≤ 100
      · rw [if_pos hc] at h
        cases h
        omega
      · rw [if_neg hc] at h
        cases h
    | none =>
      simp only [hp] at h
      cases hb : firstBoundedNumber (pyStrip body).data none with
      | some n =>
        simp only [hb] at h
        by_cases hc : n ≤ 100
        · rw [if_pos hc] at h
          cases h
          exact hc
        · rw [if_neg hc] at h
          cases h
      | none => simp only [hb] at h; cases h

theorem tryAttempts_le (rs : Nat → ApiResult) (fuel i v : Nat)
    (h : tryAttempts rs i fuel = some v) : v ≤ 100 := by
  induction fuel generalizing i with
  | zero => cases h
  | succ fuel ih =>
    simp only [tryAttempts] at h
    cases hc : callGeminiApi (rs i) with
    | some s =>
      rw [hc] at h
      cases h
      exact callGeminiApi_le _ _ hc
    | none =>
      rw [hc] at h
      exact ih _ h

theorem tryAttempts_none (rs : Nat → ApiResult) (fuel i : Nat)
    (h : ∀ j, i ≤ j → j < i + fuel → callGeminiApi (rs j) = none) :
    tryAttempts rs i fuel = none := by
  induction fuel generalizing i with
  | zero => rfl
  | succ fuel ih =>
    simp only [tryAttempts]
    rw [h i (Nat.le_refl i) (by omega)]
    exact ih (i + 1) (fun j h1 h2 => h j (by omega) (by omega))

theorem calcScore_range (minScore : Int) (fatal : Bool) (rs : Nat → ApiResult) :
    (calculateRelevanceScore minScore fatal rs).relevance_score = -1 ∨
      (0 ≤ (calculateRelevanceScore minScore fatal rs).relevance_score ∧
        (calculateRelevanceScore minScore fatal rs).relevance_score ≤ 100) := by
  unfold calculateRelevanceScore
  split
  · exact Or.inl rfl
  · cases h : tryAttempts rs 0 DEFAULT_MAX_RETRIES with
    | some s =>
      right
      simp only [h]
      have := tryAttempts_le rs _ _ _ h
      omega
    | none =>
      left
      simp only [h]

/-! ## Claim theorems -/

/-- C1.  The cursor-advance operation (the running-maximum update of
`fetch_feed` followed by the `_update_RSS_METADATA` write) sets
`last_processed` to the maximum of the stored watermark and the candidate
timestamp: after any sequence of advance calls with timestamps `T1..Tn` the
stored `last_processed` equals `max(T1..Tn, initial)`, and the watermark
never decreases. -/
theorem c1_cursor_monotonicity :
    (∀ (init count : Nat) (calls : List (Nat × Nat)),
        (advanceCalls ⟨some init, count⟩ calls).last_processed
          = some (calls.foldl (fun a c => max a c.1) init)) ∧
    (∀ (m : SourceCursor) (t delta : Nat),
        (advanceCall m t delta).last_processed
          = advanceLatest m.last_processed (some t)) ∧
    (∀ (m : SourceCursor) (calls : List (Nat × Nat)),
        cursorLe m.last_processed (advanceCalls m calls).last_processed) := by
  refine ⟨?_, fun m t delta => rfl, ?_⟩
  · intro init count calls
    induction calls generalizing init count with
    | nil => rfl
    | cons c rest ih =>
      show (advanceCalls (advanceCall ⟨some init, count⟩ c.1 c.2) rest).last_processed = _
      rw [show advanceCall ⟨some init, count⟩ c.1 c.2
            = ⟨some (max init c.1), count + c.2⟩ from by
        simp [advanceCall, updateRSSMetadata, advanceLatest_some]]
      exact ih (max init c.1) (count + c.2)
  · intro m calls
    induction calls generalizing m with
    | nil => exact cursorLe_refl _
    | cons c rest ih =>
      refine cursorLe_trans ?_ (ih (advanceCall m c.1 c.2))
      exact cursorLe_advanceLatest m.last_processed (some c.1)

/-- C6.  An entry is classified new iff its parsed publication date is
absent, the cursor watermark is unset (a null watermark bounds nothing), or
the date is strictly after the watermark; in particular an entry with an
unparsable date is always new, whatever the cursor holds.  The Reddit
classifier is the same comparison with an always-present post date. -/
theorem c6_new_content_classification :
    (∀ (published lastProcessed : Option Nat),
        rssIsNewContent published lastProcessed = true ↔
          published = none ∨ lastProcessed = none ∨
            ∃ d c, published = some d ∧ lastProcessed = some c ∧ c < d) ∧
    (∀ lastProcessed : Option Nat, rssIsNewContent none lastProcessed = true) ∧
    (∀ (postDate : Nat) (lastProcessed : Option Nat),
        redditIsNewContent postDate lastProcessed = true ↔
          lastProcessed = none ∨ ∃ c, lastProcessed = some c ∧ c < postDate) := by
  refine ⟨?_, ?_, ?_⟩
  · intro published lastProcessed
    cases lastProcessed with
    | none => simp [rssIsNewContent]
    | some lp =>
      cases published with
      | none => simp [rssIsNewContent]
      | some d =>
        simp only [rssIsNewContent, decide_eq_true_eq]
        constructor
        · intro h
          exact Or.inr (Or.inr ⟨d, lp, rfl, rfl, h⟩)
        · rintro (h | h | ⟨d', c', hd, hc, hlt⟩)
          · cases h
          · cases h
          · cases hd; cases hc; exact hlt
  · intro lastProcessed
    cases lastProcessed <;> rfl
  · intro postDate lastProcessed
    cases lastProcessed with
    | none => simp [redditIsNewContent]
    | some lp =>
      simp only [redditIsNewContent, decide_eq_true_eq]
      constructor
      · intro h
        exact Or.inr ⟨lp, rfl, h⟩
      · rintro (h | ⟨c, hc, hlt⟩)
        · cases h
        · cases hc; exact hlt

/-- C3.  The scorer always returns a structured result whose score is in
`[0,100]` or the sentinel `-1`; whenever every attempt fails (retries
exhausted) or the fatal outer error path is taken, the result is exactly
score `-1` with `is_relevant = false`. -/
theorem c3_scoring_sentinel (fatalError : Bool) (responses : Nat → ApiResult)
    (h : fatalError = true ∨
      ∀ i, i < DEFAULT_MAX_RETRIES → callGeminiApi (responses i) = none) :
    calculateRelevanceScore DEFAULT_MIN_SCORE fatalError responses
        = { relevance_score := -1, is_relevant := false } ∧
    ∀ (f : Bool) (rs : Nat → ApiResult),
      (calculateRelevanceScore DEFAULT_MIN_SCORE f rs).relevance_score = -1 ∨
        (0 ≤ (calculateRelevanceScore DEFAULT_MIN_SCORE f rs).relevance_score ∧
          (calculateRelevanceScore DEFAULT_MIN_SCORE f rs).relevance_score ≤ 100) := by
  constructor
  · rcases h with h | h
    · subst h
      rfl
    · have hn : tryAttempts responses 0 DEFAULT_MAX_RETRIES = none :=
        tryAttempts_none responses DEFAULT_MAX_RETRIES 0
          (fun j h1 h2 => h j (by omega))
      unfold calculateRelevanceScore
      split
      · rfl
      · simp only [hn]
        rfl
  · exact fun f rs => calcScore_range _ f rs

theorem c3_scoring_sentinel_witness :
    calculateRelevanceScore DEFAULT_MIN_SCORE false (fun _ => ApiResult.apiError "boom")
        = { relevance_score := -1, is_relevant := false } ∧
    ∀ (f : Bool) (rs : Nat → ApiResult),
      (calculateRelevanceScore DEFAULT_MIN_SCORE f rs).relevance_score = -1 ∨
        (0 ≤ (calculateRelevanceScore DEFAULT_MIN_SCORE f rs).relevance_score ∧
          (calculateRelevanceScore DEFAULT_MIN_SCORE f rs).relevance_score ≤ 100) :=
  c3_scoring_sentinel false (fun _ => ApiResult.apiError "boom")
    (Or.inr fun _ _ => rfl)

/-- C10.  With the default minimum-score threshold of 0, every scorer result
satisfies `is_relevant = (relevance_score >= 0)`; `is_relevant` is `false`
exactly when the score is the sentinel `-1`; and an item scoring exactly 0 is
marked relevant. -/
theorem c10_default_threshold_relevance (fatalError : Bool)
    (responses : Nat → ApiResult) :
    ((calculateRelevanceScore DEFAULT_MIN_SCORE fatalError responses).is_relevant
        = decide (0 ≤ (calculateRelevanceScore DEFAULT_MIN_SCORE fatalError
            responses).relevance_score)) ∧
    ((calculateRelevanceScore DEFAULT_MIN_SCORE fatalError responses).is_relevant
        = false ↔
      (calculateRelevanceScore DEFAULT_MIN_SCORE fatalError
          responses).relevance_score = -1) ∧
    calculateRelevanceScore DEFAULT_MIN_SCORE false (fun _ => ApiResult.text "0")
        = { relevance_score := 0, is_relevant := true } := by
  have hrel : ∀ (f : Bool) (rs : Nat → ApiResult),
      (calculateRelevanceScore DEFAULT_MIN_SCORE f rs).is_relevant
        = decide (0 ≤ (calculateRelevanceScore DEFAULT_MIN_SCORE f rs).relevance_score) := by
    intro f rs
    unfold calculateRelevanceScore
    split
    · rfl
    · rfl
  refine ⟨hrel _ _, ?_, by decide⟩
  rw [hrel]
  constructor
  · intro hf
    rcases calcScore_range DEFAULT_MIN_SCORE fatalError responses with h | ⟨h1, h2⟩
    · exact h
    · exfalso
      rw [decide_eq_false_iff_not] at hf
      exact hf h1
  · intro hm
    rw [hm]
    rfl

/-- C7.  A parsed score outside `[0,100]` — such as 150 or −5 — is rejected
(the attempt yields `None`, which triggers a retry while attempts remain),
and an out-of-range value is never stored: everything the parser accepts is
at most 100, and the stored `relevance_score` is always at most 100.  The
concrete run shows response "150" rejected on attempt 1 and the score taken
from attempt 2 instead. -/
theorem c7_out_of_range_rejected :
    callGeminiApi (ApiResult.text "150") = none ∧
    callGeminiApi (ApiResult.text "-5") = none ∧
    (∀ (r : ApiResult) (v : Nat), callGeminiApi r = some v → v ≤ 100) ∧
    calculateRelevanceScore DEFAULT_MIN_SCORE false
        (fun i => if i = 0 then ApiResult.text "150" else ApiResult.text "42")
        = { relevance_score := 42, is_relevant := true } ∧
    (∀ (f : Bool) (rs : Nat → ApiResult),
        (calculateRelevanceScore DEFAULT_MIN_SCORE f rs).relevance_score ≤ 100) := by
  refine ⟨by decide, by decide, callGeminiApi_le, by decide, ?_⟩
  intro f rs
  rcases calcScore_range DEFAULT_MIN_SCORE f rs with h | ⟨h1, h2⟩
  · rw [h]
    decide
  · exact h2

/-- C8.  Backoff extraction: on the error text `"Please retry in 49.8s"` the
extracted delay is `49 + 5 = 54` seconds, and on any error text matching none
of the three known retry-delay patterns it is the fixed default
`DEFAULT_RETRY_DELAY`. -/
theorem c8_backoff_extraction (message : String)
    (h1 : searchWith matchRetryInAt (pyLower message).data = none)
    (h2 : searchWith matchRetryDelayAt (pyLower message).data = none)
    (h3 : searchWith matchSecondsAt (pyLower message).data = none) :
    extractRetryDelay message = DEFAULT_RETRY_DELAY ∧
    extractRetryDelay "Please retry in 49.8s" = 49 + 5 := by
  refine ⟨?_, by decide⟩
  unfold extractRetryDelay
  simp only [h1, h2, h3]

theorem c8_backoff_extraction_witness :
    extractRetryDelay "no backoff hint" = DEFAULT_RETRY_DELAY ∧
    extractRetryDelay "Please retry in 49.8s" = 49 + 5 :=
  c8_backoff_extraction "no backoff hint" (by decide) (by decide) (by decide)

theorem scorerAttemptsUsed_pos (rs : Nat → ApiResult) (i fuel : Nat) :
    1 ≤ scorerAttemptsUsed rs i (fuel + 1) := by
  simp only [scorerAttemptsUsed]
  cases h : callGeminiApi (rs i) <;> simp only [h] <;> omega

/-- C4.  Corrected: in the reel generator's request path a failure whose
error text carries no rate-limit indicator ends the item's attempts at once
(result `None` after exactly one attempt); the relevance scorer, by contrast,
always proceeds to another attempt after a failed one while attempts remain,
whatever the failure was. -/
theorem c4_fatal_error_no_retry (responses : Nat → ApiResult) (msg : String)
    (h0 : responses 0 = ApiResult.apiError msg)
    (h1 : isRateLimitError msg = false) :
    reelRequestWithRetry responses = (none, 1) ∧
    ∀ rs : Nat → ApiResult, callGeminiApi (rs 0) = none →
      2 ≤ scorerAttemptsUsed rs 0 DEFAULT_MAX_RETRIES := by
  constructor
  · show reelRetryGo responses 0 (2 + 1) = (none, 1)
    simp [reelRetryGo, h0, h1]
  · intro rs hrs
    show 2 ≤ scorerAttemptsUsed rs 0 (2 + 1)
    simp only [scorerAttemptsUsed, hrs]
    exact Nat.add_le_add_left (scorerAttemptsUsed_pos rs (0 + 1) 1) 1

theorem c4_fatal_error_no_retry_witness :
    reelRequestWithRetry (fun _ => ApiResult.apiError "bad request") = (none, 1) ∧
    ∀ rs : Nat → ApiResult, callGeminiApi (rs 0) = none →
      2 ≤ scorerAttemptsUsed rs 0 DEFAULT_MAX_RETRIES :=
  c4_fatal_error_no_retry (fun _ => ApiResult.apiError "bad request") "bad request"
    rfl (by decide)

theorem c4_scorer_retries_counterexample :
    isRateLimitError "API key not valid. Please pass a valid API key." = false ∧
    scorerAttemptsUsed
        (fun i => if i = 0
          then ApiResult.apiError "API key not valid. Please pass a valid API key."
          else ApiResult.text "50") 0 DEFAULT_MAX_RETRIES = 2 ∧
    calculateRelevanceScore DEFAULT_MIN_SCORE false
        (fun i => if i = 0
          then ApiResult.apiError "API key not valid. Please pass a valid API key."
          else ApiResult.text "50")
        = { relevance_score := 50, is_relevant := true } := by
  refine ⟨by decide, by decide, by decide⟩

/-- C5.  Corrected: only the social (Reddit) adapter is asked for
`2 × per_source_limit` raw entries; the RSS path slices the fetched feed to
the first `per_source_limit` entries, with no 2× margin. -/
theorem c5_fetch_request_margin (entries : List Entry) (maxItems maxPosts : Nat) :
    redditFetchLimit maxPosts = 2 * maxPosts ∧
    (rssLatestEntries entries maxItems).length = min maxItems entries.length := by
  exact ⟨Nat.mul_comm _ 2, List.length_take _ _⟩

theorem c5_rss_margin_counterexample :
    (rssLatestEntries
        (List.replicate 4 { title := "t", link := "l", summary := "s", published := none })
        2).length = 2 ∧
    redditFetchLimit 2 = 2 * 2 ∧
    (2 : Nat) ≠ 2 * 2 := by
  refine ⟨by decide, by decide, by decide⟩

theorem string_data_append (s t : String) : (s ++ t).data = s.data ++ t.data := rfl

theorem string_ext {s t : String} (h : s.data = t.data) : s = t := by
  cases s
  cases t
  cases h
  rfl

theorem pipe_split {a b x y : List Char} (ha : '|' ∉ a) (hb : '|' ∉ b)
    (h : a ++ '|' :: x = b ++ '|' :: y) : a = b ∧ x = y := by
  induction a generalizing b with
  | nil =>
    cases b with
    | nil =>
      simp only [List.nil_append] at h
      injection h with h1 h2
      exact ⟨rfl, h2⟩
    | cons d bs =>
      simp only [List.nil_append, List.cons_append] at h
      injection h with h1 h2
      subst h1
      exact absurd (List.mem_cons_self _ _) hb
  | cons c as ih =>
    cases b with
    | nil =>
      simp only [List.cons_append, List.nil_append] at h
      injection h with h1 h2
      subst h1
      exact absurd (List.mem_cons_self _ _) ha
    | cons d bs =>
      simp only [List.cons_append] at h
      injection h with h1 h2
      subst h1
      have hr := ih (fun hm => ha (List.mem_cons_of_mem c hm))
        (fun hm => hb (List.mem_cons_of_mem c hm)) h2
      exact ⟨by rw [hr.1], hr.2⟩

theorem contentString_inj (t1 l1 d1 t2 l2 d2 : String)
    (ht1 : '|' ∉ t1.data) (hl1 : '|' ∉ l1.data)
    (ht2 : '|' ∉ t2.data) (hl2 : '|' ∉ l2.data)
    (h : contentString t1 l1 d1 = contentString t2 l2 d2) :
    t1 = t2 ∧ l1 = l2 ∧ d1 = d2 := by
  have hd : t1.data ++ '|' :: (l1.data ++ '|' :: d1.data)
      = t2.data ++ '|' :: (l2.data ++ '|' :: d2.data) := by
    have hdata := congrArg String.data h
    simpa [contentString, string_data_append, List.append_assoc] using hdata
  obtain ⟨h1, h23⟩ := pipe_split ht1 ht2 hd
  obtain ⟨h2, h3⟩ := pipe_split hl1 hl2 h23
  exact ⟨string_ext h1, string_ext h2, string_ext h3⟩

/-- C9.  Corrected: the fingerprint is a pure function of its fields (same
fields give the identical digest), and tuples of delimiter-free fields are
distinguished already at the joined pre-hash string; but changing a field
does not always change the output, because the `|` delimiter may occur inside
a field (see the counterexample). -/
theorem c9_fingerprint_determinism (t1 l1 d1 t2 l2 d2 : String)
    (ht : t1 = t2) (hl : l1 = l2) (hd : d1 = d2) :
    generateContentHash t1 l1 d1 = generateContentHash t2 l2 d2 ∧
    (∀ a1 b1 c1 a2 b2 c2 : String,
        '|' ∉ a1.data → '|' ∉ b1.data → '|' ∉ a2.data → '|' ∉ b2.data →
        contentString a1 b1 c1 = contentString a2 b2 c2 →
        a1 = a2 ∧ b1 = b2 ∧ c1 = c2) := by
  subst ht
  subst hl
  subst hd
  exact ⟨rfl, fun a1 b1 c1 a2 b2 c2 h1 h2 h3 h4 h5 =>
    contentString_inj a1 b1 c1 a2 b2 c2 h1 h2 h3 h4 h5⟩

theorem c9_fingerprint_determinism_witness :
    generateContentHash "x" "y" "z" = generateContentHash "x" "y" "z" ∧
    (∀ a1 b1 c1 a2 b2 c2 : String,
        '|' ∉ a1.data → '|' ∉ b1.data → '|' ∉ a2.data → '|' ∉ b2.data →
        contentString a1 b1 c1 = contentString a2 b2 c2 →
        a1 = a2 ∧ b1 = b2 ∧ c1 = c2) :=
  c9_fingerprint_determinism "x" "y" "z" "x" "y" "z" rfl rfl rfl

theorem c9_delimiter_collision_counterexample :
    generateContentHash "a|b" "c" "" = generateContentHash "a" "b|c" "" ∧
    ¬ ("a|b" = "a" ∧ "c" = "b|c") := by
  constructor
  · show md5Hex (contentString "a|b" "c" "") = md5Hex (contentString "a" "b|c" "")
    have h : contentString "a|b" "c" "" = contentString "a" "b|c" "" := by decide
    rw [h]
  · decide

theorem fetchFeedCycle_single_old (relevance : Option ScoreResult)
    (s : PipelineState) (e : Entry) (k : Nat)
    (hnew : rssIsNewContent e.published s.metadata.last_processed = false) :
    fetchFeedCycle relevance s [e] (k + 1) = (s, [ItemOutcome.oldSkip]) := by
  unfold fetchFeedCycle rssLatestEntries
  simp [List.take_succ_cons, List.take_nil, processEntries, hnew]

theorem fetchFeedCycle_single_dup (relevance : Option ScoreResult)
    (s : PipelineState) (e : Entry) (k : Nat) (doc : ContentData)
    (hnew : rssIsNewContent e.published s.metadata.last_processed = true)
    (hlk : s.store.lookup (extractContentData e).id = some doc) :
    fetchFeedCycle relevance s [e] (k + 1) = (s, [ItemOutcome.duplicateSkip]) := by
  unfold fetchFeedCycle rssLatestEntries
  simp [List.take_succ_cons, List.take_nil, processEntries, hnew, storeContent, hlk]

theorem fetchFeedCycle_single_stored (relevance : Option ScoreResult)
    (s : PipelineState) (e : Entry) (k : Nat)
    (hnew : rssIsNewContent e.published s.metadata.last_processed = true)
    (hlk : s.store.lookup (extractContentData e).id = none) :
    fetchFeedCycle relevance s [e] (k + 1)
      = (⟨((extractContentData e).id,
            { extractContentData e with relevance := relevance }) :: s.store,
          updateRSSMetadata s.metadata
            (advanceLatest s.metadata.last_processed e.published) 1⟩,
         [ItemOutcome.storedNew]) := by
  unfold fetchFeedCycle rssLatestEntries
  simp [List.take_succ_cons, List.take_nil, processEntries, hnew, storeContent, hlk]

theorem advanceLatest_of_new (dd : Nat) (lp : Option Nat)
    (hnew : rssIsNewContent (some dd) lp = true) :
    advanceLatest lp (some dd) = some dd := by
  cases lp with
  | none => rfl
  | some c =>
    simp only [rssIsNewContent, decide_eq_true_eq] at hnew
    simp [advanceLatest, hnew]

/-- C2.  Corrected: a second write attempt with an id already in the store is
a no-op that never overwrites the stored document, and feeding the same entry
through a second feed cycle stores nothing and leaves both the store and the
cursor metadata unchanged; but the second pass reports the entry as a
*duplicate* skip only when its published date is absent/unparsable — when the
date parsed, the advanced cursor classifies the entry as old content and the
second pass reports an old-content skip instead. -/
theorem c2_idempotent_ingestion (relevance : Option ScoreResult)
    (s : PipelineState) (e : Entry) (m : Nat)
    (h : (fetchFeedCycle relevance s [e] m).2 = [ItemOutcome.storedNew]) :
    (fetchFeedCycle relevance (fetchFeedCycle relevance s [e] m).1 [e] m).1
        = (fetchFeedCycle relevance s [e] m).1 ∧
    (fetchFeedCycle relevance (fetchFeedCycle relevance s [e] m).1 [e] m).2
        = [if e.published = none then ItemOutcome.duplicateSkip
           else ItemOutcome.oldSkip] ∧
    (∀ (store : Store) (d : ContentData) (doc : ContentData)
        (rel : Option ScoreResult),
        store.lookup d.id = some doc →
          storeContent store d rel = (store, false) ∧
          (storeContent store d rel).1.lookup d.id = some doc) := by
  have hnoop : ∀ (store : Store) (d : ContentData) (doc : ContentData)
      (rel : Option ScoreResult),
      store.lookup d.id = some doc →
        storeContent store d rel = (store, false) ∧
        (storeContent store d rel).1.lookup d.id = some doc := by
    intro store d doc rel hlk
    refine ⟨by simp [storeContent, hlk], ?_⟩
    simp [storeContent, hlk]
  cases m with
  | zero =>
    exfalso
    simp [fetchFeedCycle, rssLatestEntries, processEntries] at h
  | succ k =>
    by_cases hnew : rssIsNewContent e.published s.metadata.last_processed = true
    · cases hlk : s.store.lookup (extractContentData e).id with
      | some doc =>
        rw [fetchFeedCycle_single_dup relevance s e k doc hnew hlk] at h
        simp at h
      | none =>
        have hst := fetchFeedCycle_single_stored relevance s e k hnew hlk
        have hlk1 : (((extractContentData e).id,
              { extractContentData e with relevance := relevance }) :: s.store).lookup
                (extractContentData e).id
            = some { extractContentData e with relevance := relevance } := by
          simp [List.lookup]
        cases hpub : e.published with
        | none =>
          rw [hpub] at hst
          have hnew1 : rssIsNewContent e.published
              (updateRSSMetadata s.metadata
                (advanceLatest s.metadata.last_processed none) 1).last_processed
              = true := by
            rw [hpub]
            show rssIsNewContent none s.metadata.last_processed = true
            cases s.metadata.last_processed <;> rfl
          have hsecond : fetchFeedCycle relevance
              (fetchFeedCycle relevance s [e] (k + 1)).1 [e] (k + 1)
              = ((fetchFeedCycle relevance s [e] (k + 1)).1,
                 [ItemOutcome.duplicateSkip]) := by
            rw [hst]
            dsimp only
            exact fetchFeedCycle_single_dup relevance _ e k _ hnew1 hlk1
          rw [hsecond]
          exact ⟨rfl, by simp, hnoop⟩
        | some dd =>
          rw [hpub] at hst
          have hnew' : rssIsNewContent (some dd) s.metadata.last_processed = true := by
            rw [← hpub]
            exact hnew
          have hnew1 : rssIsNewContent e.published
              (updateRSSMetadata s.metadata
                (advanceLatest s.metadata.last_processed (some dd)) 1).last_processed
              = false := by
            rw [hpub]
            show rssIsNewContent (some dd)
              (advanceLatest s.metadata.last_processed (some dd)) = false
            rw [advanceLatest_of_new dd s.metadata.last_processed hnew']
            simp [rssIsNewContent]
          have hsecond : fetchFeedCycle relevance
              (fetchFeedCycle relevance s [e] (k + 1)).1 [e] (k + 1)
              = ((fetchFeedCycle relevance s [e] (k + 1)).1,
                 [ItemOutcome.oldSkip]) := by
            rw [hst]
            dsimp only
            exact fetchFeedCycle_single_old relevance _ e k hnew1
          rw [hsecond]
          exact ⟨rfl, by simp, hnoop⟩
    · rw [fetchFeedCycle_single_old relevance s e k
        (Bool.eq_false_iff.mpr hnew)] at h
      simp at h

theorem c2_idempotent_ingestion_witness :
    (fetchFeedCycle none
        (fetchFeedCycle none ⟨[], ⟨none, 0⟩⟩
          [{ title := "t", link := "l", summary := "s", published := none }] 20).1
        [{ title := "t", link := "l", summary := "s", published := none }] 20).1
      = (fetchFeedCycle none ⟨[], ⟨none, 0⟩⟩
          [{ title := "t", link := "l", summary := "s", published := none }] 20).1 ∧
    (fetchFeedCycle none
        (fetchFeedCycle none ⟨[], ⟨none, 0⟩⟩
          [{ title := "t", link := "l", summary := "s", published := none }] 20).1
        [{ title := "t", link := "l", summary := "s", published := none }] 20).2
      = [if ({ title := "t", link := "l", summary := "s",
               published := none } : Entry).published = none
         then ItemOutcome.duplicateSkip else ItemOutcome.oldSkip] ∧
    (∀ (store : Store) (d : ContentData) (doc : ContentData)
        (rel : Option ScoreResult),
        store.lookup d.id = some doc →
          storeContent store d rel = (store, false) ∧
          (storeContent store d rel).1.lookup d.id = some doc) :=
  c2_idempotent_ingestion none ⟨[], ⟨none, 0⟩⟩
    { title := "t", link := "l", summary := "s", published := none } 20 rfl

theorem c2_old_content_skip_counterexample :
    (fetchFeedCycle none
        (fetchFeedCycle none ⟨[], ⟨none, 0⟩⟩
          [{ title := "t", link := "l", summary := "s", published := some 5 }] 20).1
        [{ title := "t", link := "l", summary := "s", published := some 5 }] 20).2
      = [ItemOutcome.oldSkip] ∧
    ItemOutcome.oldSkip ≠ ItemOutcome.duplicateSkip := by
  exact ⟨rfl, by decide⟩

end Pipeline
